import Mathlib

/-!
Verification of the grade-dashboard data pipeline (src/main.py).

The embedding models the pandas-based pipeline with exact rationals plus
explicit IEEE-style special values (PyFloat below): pandas holds the score
columns as floats where a missing value is NaN and division by zero yields
a signed infinity.  Strings are processed through their character lists so
that every definition evaluates by kernel reduction.
-/

/-- Model of a pandas float cell: NaN (missing), signed infinities, or an
exact rational value. -/
inductive PyFloat where
  | nan : PyFloat
  | inf : PyFloat
  | ninf : PyFloat
  | val (q : ℚ) : PyFloat
deriving DecidableEq

/-- NaN test, the model of pandas isna on a float cell. -/
def PyFloat.isNan : PyFloat → Bool
  | .nan => true
  | _ => false

/-- A missing optional rational enters the float world as NaN. -/
def ofOption : Option ℚ → PyFloat
  | none => PyFloat.nan
  | some q => PyFloat.val q

/-- IEEE-style addition on the float model (exact on finite values). -/
def pyAdd : PyFloat → PyFloat → PyFloat
  | .nan, _ => .nan
  | _, .nan => .nan
  | .inf, .ninf => .nan
  | .ninf, .inf => .nan
  | .inf, _ => .inf
  | _, .inf => .inf
  | .ninf, _ => .ninf
  | _, .ninf => .ninf
  | .val a, .val b => .val (a + b)

/-- IEEE-style multiplication on the float model (exact on finite values). -/
def pyMul : PyFloat → PyFloat → PyFloat
  | .nan, _ => .nan
  | _, .nan => .nan
  | .inf, .inf => .inf
  | .inf, .ninf => .ninf
  | .ninf, .inf => .ninf
  | .ninf, .ninf => .inf
  | .inf, .val b => if b = 0 then .nan else if 0 < b then .inf else .ninf
  | .ninf, .val b => if b = 0 then .nan else if 0 < b then .ninf else .inf
  | .val a, .inf => if a = 0 then .nan else if 0 < a then .inf else .ninf
  | .val a, .ninf => if a = 0 then .nan else if 0 < a then .ninf else .inf
  | .val a, .val b => .val (a * b)

/-- IEEE-style division: division of a nonzero finite value by (positive)
zero yields a signed infinity, 0/0 yields NaN, as in numpy/pandas. -/
def pyDiv : PyFloat → PyFloat → PyFloat
  | .nan, _ => .nan
  | _, .nan => .nan
  | .inf, .inf => .nan
  | .inf, .ninf => .nan
  | .ninf, .inf => .nan
  | .ninf, .ninf => .nan
  | .inf, .val b => if b < 0 then .ninf else .inf
  | .ninf, .val b => if b < 0 then .inf else .ninf
  | .val _, .inf => .val 0
  | .val _, .ninf => .val 0
  | .val a, .val b =>
    if b = 0 then (if a = 0 then .nan else if 0 < a then .inf else .ninf)
    else .val (a / b)

/-- Round half to even on an exact rational, the rounding mode of Python
round and numpy round. -/
def rhe (q : ℚ) : ℤ :=
  if q - ⌊q⌋ < 1/2 then ⌊q⌋
  else if 1/2 < q - ⌊q⌋ then ⌊q⌋ + 1
  else if ⌊q⌋ % 2 = 0 then ⌊q⌋ else ⌊q⌋ + 1

/-- Model of pandas Series.round(k): round half to even at k decimal
places; NaN and infinities pass through. -/
def pyRound (k : ℕ) : PyFloat → PyFloat
  | .val q => .val ((rhe (q * 10 ^ k) : ℚ) / 10 ^ k)
  | x => x

/-- Model of pandas Series.clip(upper=u): values above u become u, +inf
becomes u, NaN and -inf pass through. -/
def clipUpper (u : ℚ) : PyFloat → PyFloat
  | .nan => .nan
  | .inf => .val u
  | .ninf => .ninf
  | .val a => .val (min a u)

/-- Sum of a list of float cells, as pandas computes it (exact model). -/
def pySum (l : List PyFloat) : PyFloat := l.foldr pyAdd (PyFloat.val 0)

/-- Model of pandas mean with skipna: mean of the non-NaN entries, NaN for
an all-NaN (or empty) list. -/
def pyMean (l : List PyFloat) : PyFloat :=
  if (l.filter (fun p => !p.isNan)).length = 0 then PyFloat.nan
  else pyDiv (pySum (l.filter (fun p => !p.isNan))) (PyFloat.val ((l.filter (fun p => !p.isNan)).length))

/-- Python str.rstrip: drop trailing whitespace. -/
def rstrip (s : String) : String :=
  String.mk ((s.data.reverse.dropWhile Char.isWhitespace).reverse)

/-- Python str.strip: drop leading and trailing whitespace. -/
def strip (s : String) : String :=
  String.mk (((s.data.dropWhile Char.isWhitespace).reverse.dropWhile Char.isWhitespace).reverse)

/-- Python str.upper, restricted to the ASCII case mapping. -/
def strUpper (s : String) : String := String.mk (s.data.map Char.toUpper)

/-- Lexicographic comparison of character lists by code point. -/
def listLt : List Char → List Char → Bool
  | [], [] => false
  | [], _ :: _ => true
  | _ :: _, [] => false
  | c :: cs, d :: ds =>
    if c.toNat < d.toNat then true
    else if d.toNat < c.toNat then false
    else listLt cs ds

/-- Strict lexicographic order on strings (model of Python str <). -/
def strLt (a b : String) : Bool := listLt a.data b.data

/-- Non-strict lexicographic order on strings. -/
def strLe (a b : String) : Bool := !(listLt b.data a.data)

/-- Stable insertion of an element into a sorted list: the element goes in
front of the first entry it is le-related to. -/
def insertSorted {α : Type} (le : α → α → Bool) (x : α) : List α → List α
  | [] => [x]
  | y :: ys => if le x y then x :: y :: ys else y :: insertSorted le x ys

/-- Stable sort by insertion, the model of the pandas sort steps. -/
def insertionSort {α : Type} (le : α → α → Bool) : List α → List α
  | [] => []
  | x :: xs => insertSorted le x (insertionSort le xs)

/-- A raw database cell as the Oracle driver hands it to the row cleaner:
an ordinary string, a LOB (large-text) handle carrying its payload, a
number, or SQL NULL. -/
inductive Cell where
  | str (s : String) : Cell
  | lob (s : String) : Cell
  | num (q : ℚ) : Cell
  | null : Cell
deriving DecidableEq

/-- One cell of the row cleaner fix (src/main.py lines 51-56).  The
outer condition of the Python conditional expression tests isinstance(c,
str) on the original cell, which is false for a LOB handle, so only plain
string cells are right-trimmed; every other cell - the LOB branch
included - passes through unchanged. -/
def fixCell : Cell → Cell
  | .str s => .str (rstrip s)
  | c => c

/-- The row cleaner fix over one raw row. -/
def fix (row : List Cell) : List Cell := row.map fixCell

/-- Comma-to-dot substitution on every character, the model of the
str.replace call of carregar_dados line 81 that turns each comma into a
dot. -/
def commaToDot (c : Char) : Char := if c = ',' then '.' else c

/-- Replace every comma by a dot in a string. -/
def replaceCommas (s : String) : String := String.mk (s.data.map commaToDot)

/-- Numeric value of a digit list read left to right. -/
def digitsToNat (cs : List Char) : ℕ := cs.foldl (fun n c => 10 * n + (c.toNat - 48)) 0

/-- Modelled from the spec: the grammar of the coercing pd.to_numeric
library call on an unsigned token, per section 9 of the spec: digits with
at most one dot as decimal separator, at least one digit, no thousands
separators; anything else coerces to null. -/
def parseUnsigned (cs : List Char) : Option ℚ :=
  match List.splitOn '.' cs with
  | [ip] => if ip ≠ [] ∧ ip.all Char.isDigit then some (digitsToNat ip) else none
  | [ip, fp] =>
    if (ip ≠ [] ∨ fp ≠ []) ∧ ip.all Char.isDigit ∧ fp.all Char.isDigit
    then some ((digitsToNat ip : ℚ) + (digitsToNat fp : ℚ) / 10 ^ fp.length)
    else none
  | _ => none

/-- Modelled from the spec: the coercing pd.to_numeric library call on the
full token: an optional sign followed by an unsigned decimal numeral; any
other text coerces to null rather than raising. -/
def parseDecimal (s : String) : Option ℚ :=
  match s.data with
  | [] => none
  | '+' :: rest => parseUnsigned rest
  | '-' :: rest => (parseUnsigned rest).map Neg.neg
  | cs => parseUnsigned cs

/-- The score parser of carregar_dados lines 80-82: replace commas by dots,
then coerce to a number or null. -/
def parseScore (s : String) : Option ℚ := parseDecimal (replaceCommas s)

/-- A row of the atividades query (id_atividade, turma, fase,
nome_atividade, nota_maxima); the numeric column may be NULL. -/
structure AtividadeRow where
  id_atividade : String
  turma : String
  fase : String
  nome_atividade : String
  nota_maxima : Option ℚ
deriving DecidableEq

/-- A row of the alunos query (id_atividade, id_aluno, rm, nome, nota,
feedback, ir_alem); nota is kept as its textual representation, which is
what astype(str) produces before parsing. -/
structure AlunoRow where
  id_atividade : String
  id_aluno : String
  rm : String
  nome : String
  nota : String
  feedback : Option String
  ir_alem : Option String
deriving DecidableEq

/-- Column cleanup of carregar_dados lines 75-78 on an atividades row: of
the listed columns, id_atividade, turma and fase are present. -/
def stripAtividade (a : AtividadeRow) : AtividadeRow :=
  { a with id_atividade := strip a.id_atividade, turma := strip a.turma, fase := strip a.fase }

/-- Column cleanup of carregar_dados lines 75-78 on an alunos row: of the
listed columns, id_atividade, rm and nome are present (id_aluno is not in
the list and is left untouched). -/
def stripAluno (g : AlunoRow) : AlunoRow :=
  { g with id_atividade := strip g.id_atividade, rm := strip g.rm, nome := strip g.nome }

/-- The derived percentage of carregar_dados lines 85-87:
(nota / nota_maxima * 100).round(3).clip(upper=100) in the float model. -/
def percentualOf (nota nota_maxima : Option ℚ) : PyFloat :=
  clipUpper 100 (pyRound 3 (pyMul (pyDiv (ofOption nota) (ofOption nota_maxima)) (PyFloat.val 100)))

/-- A UnifiedRecord: one alunos row merged with its matching atividades row
(absent fields are none when no activity matched), with the derived
percentage. -/
structure Registro where
  id_atividade : String
  id_aluno : String
  rm : String
  nome : String
  nota : Option ℚ
  feedback : Option String
  ir_alem : Option String
  turma : Option String
  fase : Option String
  nome_atividade : Option String
  nota_maxima : Option ℚ
  percentual : PyFloat
deriving DecidableEq

/-- Build a UnifiedRecord from a (cleaned) alunos row and an optional
matching atividades row. -/
def mkRegistro (g : AlunoRow) (a : Option AtividadeRow) : Registro :=
  let nq := parseScore g.nota
  let mx := match a with
    | none => none
    | some x => x.nota_maxima
  { id_atividade := g.id_atividade, id_aluno := g.id_aluno, rm := g.rm, nome := g.nome,
    nota := nq, feedback := g.feedback, ir_alem := g.ir_alem,
    turma := a.map (fun x => x.turma), fase := a.map (fun x => x.fase),
    nome_atividade := a.map (fun x => x.nome_atividade),
    nota_maxima := mx, percentual := percentualOf nq mx }

/-- The left-merge contribution of one alunos row (carregar_dados line 84):
one output row per matching activity, or a single activity-less row when
no activity matches. -/
def joinRow (atv : List AtividadeRow) (g : AlunoRow) : List Registro :=
  match atv.filter (fun x => x.id_atividade == g.id_atividade) with
  | [] => [mkRegistro g none]
  | m :: ms => (m :: ms).map (fun x => mkRegistro g (some x))

/-- Order on optional strings for the final sort: missing values (NaN)
sort last, as pandas sort_values does by default. -/
def optStrLt : Option String → Option String → Bool
  | some x, some y => strLt x y
  | some _, none => true
  | none, _ => false

/-- Non-strict companion of optStrLt. -/
def optStrLe (a b : Option String) : Bool := !(optStrLt b a)

/-- Sort key of carregar_dados line 89: by (fase, nome_atividade). -/
def faseLe (r₁ r₂ : Registro) : Bool :=
  optStrLt r₁.fase r₂.fase || (r₁.fase == r₂.fase && optStrLe r₁.nome_atividade r₂.nome_atividade)

/-- carregar_dados (src/main.py lines 62-89) minus the database fetch: take
the two query results, clean the text columns, parse nota, left-merge on
id_atividade, derive the percentage and sort by (fase, nome_atividade). -/
def carregar_dados (atv : List AtividadeRow) (alu : List AlunoRow) : List Registro :=
  insertionSort faseLe ((alu.map stripAluno).flatMap (joinRow (atv.map stripAtividade)))

/-- One row of the per-student summary table produced by resumo_alunos. -/
structure ResumoRow where
  id_aluno : String
  rm : String
  nome : String
  media_pct : PyFloat
  notas_lancadas : ℕ
  pct_sem_nota : ℤ
deriving DecidableEq

/-- The groupby key of resumo_alunos line 94. -/
def chave (r : Registro) : String × String × String := (r.id_aluno, r.rm, r.nome)

/-- pct_faltas of src/main.py line 93: round(100 * nulls / total) with
Python round, i.e. round half to even. -/
def pct_faltas (nulls total : ℕ) : ℤ := rhe ((100 * nulls : ℚ) / total)

/-- The aggregation of one group of resumo_alunos lines 94-99: mean of the
percentages (skipping NaN, rounded to 1 decimal), count of non-NaN
percentages, and the rounded share of NaN percentages. -/
def resumoFor (df : List Registro) (k : String × String × String) : ResumoRow :=
  { id_aluno := k.1, rm := k.2.1, nome := k.2.2,
    media_pct := pyRound 1 (pyMean ((df.filter (fun r => chave r == k)).map (fun r => r.percentual))),
    notas_lancadas :=
      (((df.filter (fun r => chave r == k)).map (fun r => r.percentual)).filter
        (fun p => !p.isNan)).length,
    pct_sem_nota :=
      pct_faltas
        ((((df.filter (fun r => chave r == k)).map (fun r => r.percentual)).filter
          (fun p => p.isNan)).length)
        (((df.filter (fun r => chave r == k)).map (fun r => r.percentual)).length) }

/-- Lexicographic group-key order of pandas groupby (sort=True). -/
def chaveLe (x y : String × String × String) : Bool :=
  strLt x.1 y.1 ||
    (x.1 == y.1 && (strLt x.2.1 y.2.1 || (x.2.1 == y.2.1 && strLe x.2.2 y.2.2)))

/-- resumo_alunos (src/main.py lines 92-104): group by (id_aluno, rm,
nome), aggregate, and sort the result by nome. -/
def resumo_alunos (df : List Registro) : List ResumoRow :=
  insertionSort (fun a b => strLe a.nome b.nome)
    ((insertionSort chaveLe ((df.map chave).dedup)).map (resumoFor df))

/-- The went-above filter of the ranking (src/main.py line 176): keep a row
exactly when its ir_alem, uppercased, equals SIM; a missing ir_alem fails
the test, since in pandas an equality comparison against NaN is false. -/
def simOk (r : Registro) : Bool :=
  match r.ir_alem with
  | some s => strUpper s == "SIM"
  | none => false

/-- One row of the Ir Além ranking. -/
structure RankingRow where
  rm : String
  nome : String
  quantidade : ℕ
deriving DecidableEq

/-- Lexicographic order on the ranking group key (rm, nome). -/
def rmNomeLe (x y : String × String) : Bool :=
  strLt x.1 y.1 || (x.1 == y.1 && strLe x.2 y.2)

/-- Grouping and counting step of the ranking over already-filtered rows:
group by (rm, nome), take group sizes, sort by count descending. -/
def rankingOf (f : List Registro) : List RankingRow :=
  insertionSort (fun a b => decide (b.quantidade ≤ a.quantidade))
    ((insertionSort rmNomeLe ((f.map (fun r => (r.rm, r.nome))).dedup)).map
      (fun k => { rm := k.1, nome := k.2,
                  quantidade := (f.filter (fun r => (r.rm, r.nome) == k)).length }))

/-- The ranking of src/main.py lines 176-180: filter to the went-above
rows, then group, count and sort descending. -/
def ranking (df : List Registro) : List RankingRow := rankingOf (df.filter simOk)

/-- The cache state of the memoized carregar_dados: the stored snapshot, or
none after carregar_dados.clear(). -/
def invalidate (_ : Option (List Registro)) : Option (List Registro) := none

/-- Modelled from the spec: the st.cache_data memoization wrapping
carregar_dados (the decorator itself is external library code): a cached
snapshot is returned as is; on an empty cache the database is queried and
the result stored. -/
def load (atv : List AtividadeRow) (alu : List AlunoRow) :
    Option (List Registro) → List Registro × Option (List Registro)
  | some r => (r, some r)
  | none => (carregar_dados atv alu, some (carregar_dados atv alu))

/-- The amended percentage contract, written from the amended claim: null
iff nota is null, nota_maxima is null, or both are zero; a nonzero nota
over a zero nota_maxima gives 100 (clamped +inf) when positive and -inf
when negative; otherwise round to 3 decimals and clamp above at 100. -/
def specPercentual (nota nota_maxima : Option ℚ) : PyFloat :=
  match nota, nota_maxima with
  | none, _ => PyFloat.nan
  | some _, none => PyFloat.nan
  | some a, some b =>
    if b = 0 then
      (if a = 0 then PyFloat.nan else if 0 < a then PyFloat.val 100 else PyFloat.ninf)
    else PyFloat.val (min ((rhe (a / b * 100 * 10 ^ (3:ℕ)) : ℚ) / 10 ^ (3:ℕ)) 100)

/-- Any insertion keeps exactly the inserted element plus the old list. -/
theorem insertSorted_perm {α : Type} (le : α → α → Bool) (x : α) (l : List α) :
    (insertSorted le x l).Perm (x :: l) := by
  induction l with
  | nil => exact List.Perm.refl _
  | cons y ys ih =>
    by_cases h : le x y = true
    · simp [insertSorted, h]
    · simp only [insertSorted, h]
      simp only [Bool.false_eq_true, if_false]
      exact ((ih.cons y).trans (List.Perm.swap x y ys))

/-- The stable sort is a permutation of its input. -/
theorem insertionSort_perm {α : Type} (le : α → α → Bool) (l : List α) :
    (insertionSort le l).Perm l := by
  induction l with
  | nil => exact List.Perm.refl _
  | cons x xs ih => exact (insertSorted_perm le x _).trans (ih.cons x)

/-- Round half to even fixes integers. -/
theorem rhe_intCast (k : ℤ) : rhe (k : ℚ) = k := by
  have hf : ⌊(k : ℚ)⌋ = k := Int.floor_intCast k
  unfold rhe
  rw [hf, sub_self]
  norm_num

/-- Round half to even on an exact half: the result is the even neighbour. -/
theorem rhe_int_add_half (k : ℤ) : rhe ((k : ℚ) + 1/2) = if k % 2 = 0 then k else k + 1 := by
  have hf : ⌊(k : ℚ) + 1/2⌋ = k := by
    rw [add_comm, Int.floor_add_int]
    norm_num
  unfold rhe
  rw [hf]
  have e : ((k : ℚ) + 1/2 - (k : ℚ)) = 1/2 := by ring
  rw [e]
  norm_num

/-- C1 counterexample: the claimed null condition fails on the code.  With
score 1 and max score 0 the pandas division yields +inf, which the upper
clip turns into 100, so the percentage is not null even though max score
is zero. -/
theorem percentual_null_iff_counterexample :
    ¬ (percentualOf (some 1) (some 0) = PyFloat.nan ↔
        ((some (1:ℚ)) = none ∨ (some (0:ℚ)) = none ∨ (some (0:ℚ)) = some 0)) := by
  decide

/-- C1 (amended): the derived percentage agrees pointwise with the amended
contract specPercentual - null iff score is null, max score is null, or
both are zero; a nonzero score over a zero max score gives 100 when
positive and -inf when negative; otherwise round to 3 decimals and clamp
above at 100, with no lower clamp. -/
theorem percentualOf_eq_specPercentual :
    ∀ nota nota_maxima : Option ℚ, percentualOf nota nota_maxima = specPercentual nota nota_maxima := by
  intro s m
  cases s with
  | none =>
    cases m <;>
      simp [percentualOf, specPercentual, ofOption, pyDiv, pyMul, pyRound, clipUpper]
  | some a =>
    cases m with
    | none => simp [percentualOf, specPercentual, ofOption, pyDiv, pyMul, pyRound, clipUpper]
    | some b =>
      by_cases hb : b = 0
      · subst hb
        rcases lt_trichotomy a 0 with h | h | h
        · have h1 : ¬ a = 0 := ne_of_lt h
          have h2 : ¬ 0 < a := not_lt_of_lt h
          simp [percentualOf, specPercentual, ofOption, pyDiv, pyMul, pyRound, clipUpper, h1, h2]
        · subst h
          simp [percentualOf, specPercentual, ofOption, pyDiv, pyMul, pyRound, clipUpper]
        · have h1 : ¬ a = 0 := (ne_of_gt h)
          simp [percentualOf, specPercentual, ofOption, pyDiv, pyMul, pyRound, clipUpper, h1, h]
      · simp [percentualOf, specPercentual, ofOption, pyDiv, pyMul, pyRound, clipUpper, hb]

/-- C2: the row cleaner at a row holding a LOB cell, a padded string cell,
a number and a NULL.  The string cell is right-trimmed and the non-string
cells pass through - the LOB cell included, untouched and never read,
because the isinstance test against str is false for a LOB handle; this
contradicts the docstring of _fetch_df, which promises CLOB to str
conversion. -/
theorem fix_lob_passthrough :
    fix [Cell.lob ("pay  "), Cell.str ("x  "), Cell.num 2, Cell.null]
      = [Cell.lob ("pay  "), Cell.str ("x"), Cell.num 2, Cell.null] := by
  decide

/-- C6: with the database rows unchanged, a second load after a load
returns the very same value, and a load right after invalidate re-queries,
so it returns whatever carregar_dados yields on the current rows. -/
theorem load_cache_contract :
    ∀ (atv : List AtividadeRow) (alu : List AlunoRow) (c : Option (List Registro)),
      (load atv alu ((load atv alu c).2)).1 = (load atv alu c).1 ∧
      ∀ (atv₂ : List AtividadeRow) (alu₂ : List AlunoRow),
        (load atv₂ alu₂ (invalidate c)).1 = carregar_dados atv₂ alu₂ := by
  intro atv alu c
  cases c <;> simp [load, invalidate]

/-- C9: an empty grade set gives an empty load result, and the two
aggregations on an empty record set return empty lists rather than
failing. -/
theorem empty_inputs_empty_outputs :
    ∀ atv : List AtividadeRow,
      carregar_dados atv [] = [] ∧ resumo_alunos [] = [] ∧ ranking [] = [] := by
  intro atv
  exact ⟨rfl, rfl, rfl⟩

/-- C10: pct_faltas rounds half to even - whenever 100 times the null
count over the total lands exactly on a half (200 nulls equals total times
an odd number), the result is the even neighbour, not always the upper
one. -/
theorem pct_faltas_half_to_even :
    ∀ (nulls total : ℕ) (k : ℤ), 0 < total →
      (200 * nulls : ℤ) = total * (2 * k + 1) →
      pct_faltas nulls total = if k % 2 = 0 then k else k + 1 := by
  intro n t k ht h
  have ht' : ((t : ℕ) : ℚ) ≠ 0 := by
    exact_mod_cast Nat.pos_iff_ne_zero.mp ht
  have h' : (200 * n : ℚ) = (t : ℚ) * (2 * (k : ℚ) + 1) := by exact_mod_cast h
  have hq : (100 * n : ℚ) / t = (k : ℚ) + 1/2 := by
    field_simp
    linarith [h']
  unfold pct_faltas
  rw [hq, rhe_int_add_half]

/-- C10 witness: one null out of eight records sits exactly on 12.5 and
rounds down to the even 12. -/
theorem pct_faltas_half_to_even_witness :
    0 < 8 ∧ (200 * 1 : ℤ) = 8 * (2 * 12 + 1) ∧ pct_faltas 1 8 = 12 := by
  refine ⟨by decide, by decide, ?_⟩
  exact (pct_faltas_half_to_even 1 8 12 (by decide) (by decide)).trans (by decide)

/-- When the activity ids are pairwise distinct, at most one activity row
matches a given id. -/
theorem filter_id_atividade_le_one (y : String) :
    ∀ atv : List AtividadeRow, (atv.map (fun a => a.id_atividade)).Nodup →
      (atv.filter (fun x => x.id_atividade == y)).length ≤ 1 := by
  intro atv
  induction atv with
  | nil => intro _; simp
  | cons a l ih =>
    intro h
    rw [List.map_cons, List.nodup_cons] at h
    by_cases hy : a.id_atividade = y
    · have hnil : l.filter (fun x => x.id_atividade == y) = [] := by
        rw [List.filter_eq_nil_iff]
        intro x hx
        simp only [beq_iff_eq]
        intro hfx
        exact h.1 (by rw [hy, ← hfx]; exact List.mem_map_of_mem _ hx)
      simp [List.filter_cons, hy, hnil]
    · have hb : (a.id_atividade == y) = false := by simp [hy]
      simp only [List.filter_cons, hb, Bool.false_eq_true, if_false]
      exact ih h.2

/-- Under unique activity ids, each grade row contributes exactly one row
to the left merge: its match when one exists, an activity-less row
otherwise. -/
theorem joinRow_length (atv : List AtividadeRow) (g : AlunoRow)
    (h : (atv.map (fun a => a.id_atividade)).Nodup) :
    (joinRow atv g).length = 1 := by
  unfold joinRow
  rcases hm : atv.filter (fun x => x.id_atividade == g.id_atividade) with _ | ⟨m, ms⟩
  · rw [hm]
    rfl
  · have hle := filter_id_atividade_le_one g.id_atividade atv h
    rw [hm] at hle
    have hms : ms = [] := by
      cases ms with
      | nil => rfl
      | cons b t => simp at hle
    subst hms
    rw [hm]
    simp

/-- C3: with activity ids unique among the (cleaned) activities, the left
merge of carregar_dados keeps exactly one unified record per grade row -
grade rows without a matching activity included - so the output size
equals the grade row count. -/
theorem carregar_dados_preserves_grade_count :
    ∀ (atv : List AtividadeRow) (alu : List AlunoRow),
      ((atv.map stripAtividade).map (fun a => a.id_atividade)).Nodup →
      (carregar_dados atv alu).length = alu.length := by
  intro atv alu h
  unfold carregar_dados
  rw [(insertionSort_perm faseLe _).length_eq, List.length_flatMap]
  have h1 : ∀ g ∈ alu.map stripAluno,
      (List.length ∘ joinRow (atv.map stripAtividade)) g = 1 := by
    intro g _
    exact joinRow_length _ g h
  rw [List.map_congr_left h1]
  have hc : ((fun _ => (1:ℕ)) ∘ stripAluno) = fun _ => (1:ℕ) := rfl
  rw [List.map_map, hc]
  simp

/-- C3 witness: two activities with distinct ids, two grade rows of which
one matches no activity; both grade rows survive the merge. -/
theorem carregar_dados_preserves_grade_count_witness :
    ((([{ id_atividade := "A1", turma := "T", fase := "F1", nome_atividade := "N1",
          nota_maxima := some 10 },
        { id_atividade := "A2", turma := "T", fase := "F2", nome_atividade := "N2",
          nota_maxima := some 10 }] : List AtividadeRow).map stripAtividade).map
        (fun a => a.id_atividade)).Nodup ∧
    (carregar_dados
      [{ id_atividade := "A1", turma := "T", fase := "F1", nome_atividade := "N1",
         nota_maxima := some 10 },
       { id_atividade := "A2", turma := "T", fase := "F2", nome_atividade := "N2",
         nota_maxima := some 10 }]
      [{ id_atividade := "A1", id_aluno := "S1", rm := "R1", nome := "Ana",
         nota := "7", feedback := none, ir_alem := none },
       { id_atividade := "ZZ", id_aluno := "S2", rm := "R2", nome := "Bia",
         nota := "5", feedback := none, ir_alem := none }]).length = 2 := by
  refine ⟨by decide, ?_⟩
  exact carregar_dados_preserves_grade_count _ _ (by decide)

/-- C4: replacing each dot of a comma-free numeric text by a comma parses
to the very same value (the comma is the decimal separator), the two
spellings of eight and a half both parse to 17/2, and non-numeric text
parses to null rather than raising. -/
theorem parseScore_comma_decimal :
    (∀ s : String, (∀ c ∈ s.data, c ≠ ',') →
      parseScore (String.mk (s.data.map (fun c => if c = '.' then ',' else c))) = parseScore s) ∧
    parseScore ("8,5") = some (17/2) ∧ parseScore ("8.5") = some (17/2) ∧
    parseScore ("abc") = none := by
  refine ⟨?_, ?_, ?_, by decide⟩
  · intro s hs
    unfold parseScore replaceCommas
    congr 1
    show String.mk ((s.data.map _).map commaToDot) = String.mk (s.data.map commaToDot)
    rw [List.map_map]
    congr 1
    apply List.map_congr_left
    intro c hc
    have hne : c ≠ ',' := hs c hc
    by_cases hd : c = '.'
    · simp [Function.comp, hd, commaToDot]
    · simp [Function.comp, hd, commaToDot, hne]
  · have h : parseScore ("8,5")
        = some ((digitsToNat ['8'] : ℚ) + (digitsToNat ['5'] : ℚ) / 10 ^ (1:ℕ)) := rfl
    rw [h]
    have h8 : digitsToNat ['8'] = 8 := by decide
    have h5 : digitsToNat ['5'] = 5 := by decide
    rw [h8, h5]
    norm_num
  · have h : parseScore ("8.5")
        = some ((digitsToNat ['8'] : ℚ) + (digitsToNat ['5'] : ℚ) / 10 ^ (1:ℕ)) := rfl
    rw [h]
    have h8 : digitsToNat ['8'] = 8 := by decide
    have h5 : digitsToNat ['5'] = 5 := by decide
    rw [h8, h5]
    norm_num

/-- C4 witness: the comma spelling obtained from the dot spelling of eight
and a half parses to the same value as the dot spelling itself. -/
theorem parseScore_comma_decimal_witness :
    parseScore (String.mk (("8.5").data.map (fun c => if c = '.' then ',' else c)))
      = parseScore ("8.5") :=
  parseScore_comma_decimal.1 ("8.5") (by decide)

/-- C5: the ranking counts only rows whose ir_alem, uppercased, equals
SIM - prepending any row failing that test leaves the ranking unchanged -
and two rows of one student spelt sim and Sim land in the same bucket
with count 2. -/
theorem ranking_counts_sim_only :
    (∀ (r : Registro) (l : List Registro), simOk r = false → ranking (r :: l) = ranking l) ∧
    ranking
      [{ id_atividade := "A1", id_aluno := "S1", rm := "R1", nome := "S1",
         nota := some 8, feedback := none, ir_alem := some ("sim"),
         turma := some ("T"), fase := some ("F1"), nome_atividade := some ("N1"),
         nota_maxima := some 10, percentual := PyFloat.val 80 },
       { id_atividade := "A2", id_aluno := "S1", rm := "R1", nome := "S1",
         nota := some 9, feedback := none, ir_alem := some ("Sim"),
         turma := some ("T"), fase := some ("F2"), nome_atividade := some ("N2"),
         nota_maxima := some 10, percentual := PyFloat.val 90 }]
      = [{ rm := "R1", nome := "S1", quantidade := 2 }] := by
  constructor
  · intro r l h
    unfold ranking
    rw [List.filter_cons_of_neg (by simp [h])]
  · decide

/-- C5 witness: a row whose ir_alem is absent fails the filter and adds
nothing to the ranking. -/
theorem ranking_counts_sim_only_witness :
    simOk { id_atividade := "A1", id_aluno := "S1", rm := "R1", nome := "S1",
            nota := some 8, feedback := none, ir_alem := none,
            turma := some ("T"), fase := some ("F1"), nome_atividade := some ("N1"),
            nota_maxima := some 10, percentual := PyFloat.val 80 } = false ∧
    ranking
      [{ id_atividade := "A1", id_aluno := "S1", rm := "R1", nome := "S1",
         nota := some 8, feedback := none, ir_alem := none,
         turma := some ("T"), fase := some ("F1"), nome_atividade := some ("N1"),
         nota_maxima := some 10, percentual := PyFloat.val 80 }]
      = ranking [] :=
  ⟨by decide, ranking_counts_sim_only.1 _ [] (by decide)⟩

/-- C7: a grade row whose score text does not parse yields a null (NaN)
percentage, and the summary of a student whose only record that is has
zero recorded grades and a 100 percent missing share. -/
theorem null_score_summary :
    ∀ (g : AlunoRow) (a : Option AtividadeRow), parseScore g.nota = none →
      (mkRegistro g a).percentual = PyFloat.nan ∧
      (resumo_alunos [mkRegistro g a]).map (fun s => (s.notas_lancadas, s.pct_sem_nota))
        = [(0, 100)] := by
  intro g a h
  have hp : (mkRegistro g a).percentual = PyFloat.nan := by
    cases a <;> simp [mkRegistro, percentualOf, ofOption, h, pyDiv, pyMul, pyRound, clipUpper]
  refine ⟨hp, ?_⟩
  have hfin : pct_faltas 1 1 = 100 := by
    unfold pct_faltas
    have e : ((100 : ℚ) * ((1:ℕ):ℚ)) / ((1:ℕ):ℚ) = ((100:ℤ):ℚ) := by norm_num
    rw [e, rhe_intCast]
  simp [resumo_alunos, insertionSort, insertSorted, resumoFor, hp, pyMean, pyRound,
    PyFloat.isNan, hfin]

/-- C7 witness: a single grade row with unparseable score text abc and no
matching activity. -/
theorem null_score_summary_witness :
    parseScore ((AlunoRow.mk ("A1") ("S1") ("R1") ("Ana") ("abc") none none).nota) = none ∧
    ((mkRegistro (AlunoRow.mk ("A1") ("S1") ("R1") ("Ana") ("abc") none none) none).percentual
        = PyFloat.nan ∧
     (resumo_alunos
        [mkRegistro (AlunoRow.mk ("A1") ("S1") ("R1") ("Ana") ("abc") none none) none]).map
        (fun s => (s.notas_lancadas, s.pct_sem_nota)) = [(0, 100)]) :=
  ⟨by decide, null_score_summary _ none (by decide)⟩

/-- Addition in the float model is right-commutative, which makes the list
sum independent of the order of the entries. -/
theorem pyAdd_rcomm (a b c : PyFloat) : pyAdd a (pyAdd b c) = pyAdd b (pyAdd a c) := by
  cases a <;> cases b <;> cases c <;> simp [pyAdd]
  ring

/-- The float sum is invariant under permutation of the list. -/
theorem pySum_perm {l₁ l₂ : List PyFloat} (p : l₁.Perm l₂) : pySum l₁ = pySum l₂ := by
  induction p with
  | nil => rfl
  | cons x _ ih =>
    show pyAdd x (pySum _) = pyAdd x (pySum _)
    rw [ih]
  | swap x y l =>
    show pyAdd y (pyAdd x (pySum l)) = pyAdd x (pyAdd y (pySum l))
    exact pyAdd_rcomm y x (pySum l)
  | trans _ _ ih₁ ih₂ => rw [ih₁, ih₂]

/-- The skipna mean is invariant under permutation of the list. -/
theorem pyMean_perm {l₁ l₂ : List PyFloat} (p : l₁.Perm l₂) : pyMean l₁ = pyMean l₂ := by
  unfold pyMean
  rw [(p.filter (fun q => !q.isNan)).length_eq, pySum_perm (p.filter (fun q => !q.isNan))]

/-- One group aggregation only depends on the multiset of records, not on
their order. -/
theorem resumoFor_congr {l₁ l₂ : List Registro} (p : l₁.Perm l₂) (k : String × String × String) :
    resumoFor l₁ k = resumoFor l₂ k := by
  have hxs : (((l₁.filter (fun r => chave r == k)).map (fun r => r.percentual))).Perm
      (((l₂.filter (fun r => chave r == k)).map (fun r => r.percentual))) :=
    (p.filter (fun r => chave r == k)).map (fun r => r.percentual)
  unfold resumoFor
  rw [pyMean_perm hxs, (hxs.filter (fun q => !q.isNan)).length_eq,
    (hxs.filter (fun q => q.isNan)).length_eq, hxs.length_eq]

/-- C8: resumo_alunos is order-independent - permuting the unified record
list permutes the summary rows at most, leaving the set of per-student
summaries (average, recorded count, missing share) unchanged. -/
theorem resumo_alunos_order_independent :
    ∀ l₁ l₂ : List Registro, l₁.Perm l₂ → (resumo_alunos l₁).Perm (resumo_alunos l₂) := by
  intro l₁ l₂ p
  unfold resumo_alunos
  have hkeys : ((l₁.map chave).dedup).Perm ((l₂.map chave).dedup) := (p.map chave).dedup
  have hs : (insertionSort chaveLe ((l₁.map chave).dedup)).Perm
      (insertionSort chaveLe ((l₂.map chave).dedup)) :=
    ((insertionSort_perm chaveLe _).trans hkeys).trans (insertionSort_perm chaveLe _).symm
  have hmap : ((insertionSort chaveLe ((l₁.map chave).dedup)).map (resumoFor l₁)).Perm
      ((insertionSort chaveLe ((l₂.map chave).dedup)).map (resumoFor l₂)) := by
    have hcongr : (insertionSort chaveLe ((l₁.map chave).dedup)).map (resumoFor l₁)
        = (insertionSort chaveLe ((l₁.map chave).dedup)).map (resumoFor l₂) :=
      List.map_congr_left (fun k _ => resumoFor_congr p k)
    rw [hcongr]
    exact hs.map (resumoFor l₂)
  exact ((insertionSort_perm _ _).trans hmap).trans (insertionSort_perm _ _).symm

/-- C8 witness: swapping two concrete records permutes the input, and the
two summaries are permutations of one another. -/
theorem resumo_alunos_order_independent_witness :
    ([{ id_atividade := "A1", id_aluno := "S1", rm := "R1", nome := "Ana",
        nota := some 8, feedback := none, ir_alem := none,
        turma := some ("T"), fase := some ("F1"), nome_atividade := some ("N1"),
        nota_maxima := some 10, percentual := PyFloat.val 80 },
      { id_atividade := "A2", id_aluno := "S2", rm := "R2", nome := "Bia",
        nota := none, feedback := none, ir_alem := none,
        turma := some ("T"), fase := some ("F2"), nome_atividade := some ("N2"),
        nota_maxima := some 10, percentual := PyFloat.nan }] : List Registro).Perm
      [{ id_atividade := "A2", id_aluno := "S2", rm := "R2", nome := "Bia",
         nota := none, feedback := none, ir_alem := none,
         turma := some ("T"), fase := some ("F2"), nome_atividade := some ("N2"),
         nota_maxima := some 10, percentual := PyFloat.nan },
       { id_atividade := "A1", id_aluno := "S1", rm := "R1", nome := "Ana",
         nota := some 8, feedback := none, ir_alem := none,
         turma := some ("T"), fase := some ("F1"), nome_atividade := some ("N1"),
         nota_maxima := some 10, percentual := PyFloat.val 80 }] ∧
    (resumo_alunos
      [{ id_atividade := "A1", id_aluno := "S1", rm := "R1", nome := "Ana",
         nota := some 8, feedback := none, ir_alem := none,
         turma := some ("T"), fase := some ("F1"), nome_atividade := some ("N1"),
         nota_maxima := some 10, percentual := PyFloat.val 80 },
       { id_atividade := "A2", id_aluno := "S2", rm := "R2", nome := "Bia",
         nota := none, feedback := none, ir_alem := none,
         turma := some ("T"), fase := some ("F2"), nome_atividade := some ("N2"),
         nota_maxima := some 10, percentual := PyFloat.nan }]).Perm
      (resumo_alunos
        [{ id_atividade := "A2", id_aluno := "S2", rm := "R2", nome := "Bia",
           nota := none, feedback := none, ir_alem := none,
           turma := some ("T"), fase := some ("F2"), nome_atividade := some ("N2"),
           nota_maxima := some 10, percentual := PyFloat.nan },
         { id_atividade := "A1", id_aluno := "S1", rm := "R1", nome := "Ana",
           nota := some 8, feedback := none, ir_alem := none,
           turma := some ("T"), fase := some ("F1"), nome_atividade := some ("N1"),
           nota_maxima := some 10, percentual := PyFloat.val 80 }]) := by
  refine ⟨List.Perm.swap _ _ _, resumo_alunos_order_independent _ _ (List.Perm.swap _ _ _)⟩
